import Mathlib

/-!
Verification of the streaming response decoder and result accumulator of
`isou_search.py` (class `IsouAISearchProvider`).

The embedding translates the per-line decoding loop of
`IsouAISearchProvider.search` (lines 144-185) into Lean:

* JSON values are an inductive `Json`; `Json.parse` models `json.loads`
  on the fragment of JSON the decoder can meet.  JSON numbers are
  modelled as integers; fractional / exponent numbers and the Python
  extensions `NaN` / `Infinity` are floating point values and are left
  outside the model (the parser rejects them), as are `\uXXXX` string
  escapes.  Python `dict` semantics for duplicate object keys (first
  position, last value) is applied at parse time by `insertKey`.
* Python exceptions are `Option` / `Except`: a `none` inside the
  per-line `try` block models the exception swallowed by the bare
  `except: continue`.
* The stdout side effect of `print(data['answer'], end="", flush=True)`
  is made explicit as an `output` string threaded through the state.
-/

namespace IsouSearch

/-- JSON values as decoded by `json.loads`.  Object fields are an
association list with unique keys (Python `dict`), in insertion order. -/
inductive Json where
  | null : Json
  | bool (b : Bool) : Json
  | num (n : Int) : Json
  | str (s : String) : Json
  | arr (elems : List Json) : Json
  | obj (fields : List (String × Json)) : Json
deriving Repr

/-- Python `s.startswith(p)` (string prefix test on code points). -/
def strStartsWith (s p : String) : Bool :=
  p.data.isPrefixOf s.data

/-- Python `s[n:]` (drop the first `n` code points). -/
def strDrop (s : String) (n : Nat) : String :=
  String.mk (s.data.drop n)

/-- JSON insignificant whitespace, as accepted by Python `json.loads`. -/
def isJsonWs (c : Char) : Bool :=
  c = ' ' ∨ c = '\t' ∨ c = '\n' ∨ c = '\r'

/-- Drop leading JSON whitespace. -/
def skipWs (cs : List Char) : List Char :=
  cs.dropWhile isJsonWs

/-- Meaning of a single-character string escape `\c`.  `\uXXXX` escapes
are outside the model. -/
def escChar (c : Char) : Option Char :=
  if c = '"' then some '"'
  else if c = '\\' then some '\\'
  else if c = '/' then some '/'
  else if c = 'b' then some (Char.ofNat 8)
  else if c = 'f' then some (Char.ofNat 12)
  else if c = 'n' then some '\n'
  else if c = 'r' then some '\r'
  else if c = 't' then some '\t'
  else none

/-- Parse the body of a JSON string after the opening quote, in strict
mode (raw control characters below U+0020 are rejected, as by Python's
default `json.loads`).  Returns the decoded string and the rest of the
input after the closing quote. -/
def parseStrBody (acc : List Char) : List Char → Option (String × List Char)
  | [] => none
  | '"' :: rest => some (String.mk acc.reverse, rest)
  | '\\' :: e :: rest =>
      match escChar e with
      | some c => parseStrBody (c :: acc) rest
      | none => none
  | ['\\'] => none
  | c :: rest =>
      if c.toNat < 32 then none else parseStrBody (c :: acc) rest

/-- Split off a maximal run of decimal digits. -/
def takeDigits (cs : List Char) : List Char × List Char :=
  (cs.takeWhile Char.isDigit, cs.dropWhile Char.isDigit)

/-- Numeric value of a digit run. -/
def natOfDigits (ds : List Char) : Nat :=
  ds.foldl (fun n d => n * 10 + (d.toNat - 48)) 0

/-- A number token continued by `.`, `e` or `E` is a float, which the
model does not cover. -/
def floatFollows : List Char → Bool
  | [] => false
  | c :: _ => c = '.' ∨ c = 'e' ∨ c = 'E'

/-- Parse an integer JSON number (after an optional leading `-` already
consumed, recorded in `neg`).  Mirrors the JSON grammar: a leading `0`
is a complete token. -/
def parseNumCore (neg : Bool) : List Char → Option (Json × List Char)
  | '0' :: rest =>
      if floatFollows rest then none
      else some (Json.num 0, rest)
  | c :: rest =>
      if c.isDigit then
        let (ds, rest') := takeDigits (c :: rest)
        if floatFollows rest' then none
        else
          let n : Int := Int.ofNat (natOfDigits ds)
          some (Json.num (if neg then -n else n), rest')
      else none
  | [] => none

/-- Insert a key/value pair into an object under Python `dict`
semantics: an existing key keeps its position and takes the new value,
a new key is appended. -/
def insertKey (fields : List (String × Json)) (k : String) (v : Json) :
    List (String × Json) :=
  if fields.any (fun p => p.1 = k) then
    fields.map (fun p => if p.1 = k then (k, v) else p)
  else
    fields ++ [(k, v)]

mutual

/-- Parse one JSON value from the input (fuelled recursion; the fuel in
`Json.parse` is generous enough for any input of the given length). -/
def parseVal : Nat → List Char → Option (Json × List Char)
  | 0, _ => none
  | Nat.succ fuel, cs =>
      match skipWs cs with
      | 'n' :: 'u' :: 'l' :: 'l' :: rest => some (Json.null, rest)
      | 't' :: 'r' :: 'u' :: 'e' :: rest => some (Json.bool true, rest)
      | 'f' :: 'a' :: 'l' :: 's' :: 'e' :: rest => some (Json.bool false, rest)
      | '"' :: rest =>
          match parseStrBody [] rest with
          | some (s, rest') => some (Json.str s, rest')
          | none => none
      | '[' :: rest =>
          match skipWs rest with
          | ']' :: rest' => some (Json.arr [], rest')
          | cs' => parseElems fuel [] cs'
      | '{' :: rest =>
          match skipWs rest with
          | '}' :: rest' => some (Json.obj [], rest')
          | cs' => parseMembers fuel [] cs'
      | '-' :: rest => parseNumCore true rest
      | cs' => parseNumCore false cs'

/-- Parse the comma-separated elements of a non-empty array, the
accumulator holding already-parsed elements in reverse. -/
def parseElems : Nat → List Json → List Char → Option (Json × List Char)
  | 0, _, _ => none
  | Nat.succ fuel, acc, cs =>
      match parseVal fuel cs with
      | some (v, rest) =>
          match skipWs rest with
          | ',' :: rest' => parseElems fuel (v :: acc) rest'
          | ']' :: rest' => some (Json.arr (v :: acc).reverse, rest')
          | _ => none
      | none => none

/-- Parse the comma-separated members of a non-empty object, the
accumulator holding already-parsed members with `dict` key semantics. -/
def parseMembers : Nat → List (String × Json) → List Char →
    Option (Json × List Char)
  | 0, _, _ => none
  | Nat.succ fuel, acc, cs =>
      match skipWs cs with
      | '"' :: rest =>
          match parseStrBody [] rest with
          | some (k, rest') =>
              match skipWs rest' with
              | ':' :: rest'' =>
                  match parseVal fuel rest'' with
                  | some (v, rest3) =>
                      match skipWs rest3 with
                      | ',' :: rest4 => parseMembers fuel (insertKey acc k v) rest4
                      | '}' :: rest4 => some (Json.obj (insertKey acc k v), rest4)
                      | _ => none
                  | none => none
              | _ => none
          | none => none
      | _ => none

end

/-- Model of `json.loads`: parse a complete JSON document, requiring
only whitespace after the value. -/
def Json.parse (s : String) : Option Json :=
  match parseVal (2 * s.length + 2) s.data with
  | some (j, rest) => if (skipWs rest).isEmpty then some j else none
  | none => none

/-- Python truthiness of a JSON-decoded value, as tested by `v or ''`
and by `if data.get('related'):`. -/
def pyTruthy : Json → Bool
  | Json.null => false
  | Json.bool b => b
  | Json.num n => n ≠ 0
  | Json.str s => s ≠ ""
  | Json.arr elems => ¬ elems.isEmpty
  | Json.obj fields => ¬ fields.isEmpty

/-- Python `repr` of a string: quoted form, preferring single quotes
(double quotes when the string holds a single quote but no double
quote), with backslash, quote and the common control characters
escaped.  Other non-printable characters are kept as-is, a deliberate
simplification: the decoder only applies `repr` inside the generic
stringification of nested lists / dicts. -/
def pyReprStrChar (q : Char) (c : Char) : String :=
  if c = '\\' then "\\\\"
  else if c = q then String.mk ['\\', q]
  else if c = '\n' then "\\n"
  else if c = '\r' then "\\r"
  else if c = '\t' then "\\t"
  else String.mk [c]

/-- Python `repr` of a string (see `pyReprStrChar` for the per-character
escaping and the quote-selection rule). -/
def pyReprStr (s : String) : String :=
  let q : Char :=
    if s.data.contains '\'' ∧ ¬ s.data.contains '"' then '"' else '\''
  String.mk [q] ++ String.join (s.data.map (pyReprStrChar q)) ++ String.mk [q]

mutual

/-- Python `str()` of a JSON-decoded value: identity on strings,
`True` / `False` / `None` for booleans and null, decimal form for
integers, and the generic container `repr` for lists and dicts. -/
def pyStr : Json → String
  | Json.null => "None"
  | Json.bool true => "True"
  | Json.bool false => "False"
  | Json.num n => toString n
  | Json.str s => s
  | Json.arr elems => "[" ++ pyReprElems elems ++ "]"
  | Json.obj fields => "\x7b" ++ pyReprMembers fields ++ "\x7d"

/-- Python `repr` of a JSON-decoded value (differs from `str` only on
strings, which it quotes). -/
def pyRepr : Json → String
  | Json.str s => pyReprStr s
  | Json.null => "None"
  | Json.bool true => "True"
  | Json.bool false => "False"
  | Json.num n => toString n
  | Json.arr elems => "[" ++ pyReprElems elems ++ "]"
  | Json.obj fields => "\x7b" ++ pyReprMembers fields ++ "\x7d"

/-- Comma-separated `repr` of list elements. -/
def pyReprElems : List Json → String
  | [] => ""
  | [v] => pyRepr v
  | v :: rest => pyRepr v ++ ", " ++ pyReprElems rest

/-- Comma-separated `repr` of dict members. -/
def pyReprMembers : List (String × Json) → String
  | [] => ""
  | [(k, v)] => pyReprStr k ++ ": " ++ pyRepr v
  | (k, v) :: rest => pyReprStr k ++ ": " ++ pyRepr v ++ ", " ++ pyReprMembers rest

end

/-- The `ImageResult` dataclass: eight string fields, all defaulting to
the empty string. -/
structure ImageResult where
  id : String := ""
  name : String := ""
  source : String := ""
  url : String := ""
  img : String := ""
  thumbnail : String := ""
  snippet : String := ""
  engine : String := ""
deriving Repr, DecidableEq

/-- The `SearchResult` dataclass: accumulated images, answer and
related text. -/
structure SearchResult where
  images : List ImageResult := []
  answer : String := ""
  related : String := ""
deriving Repr, DecidableEq

/-- State threaded through the decoding loop: the accumulator under
construction plus the text written to stdout by the echo `print`. -/
structure StreamState where
  result : SearchResult := {}
  output : String := ""
deriving Repr, DecidableEq

/-- Python `dict` lookup `d[k]` / membership `k in d` on a decoded JSON
object (keys are unique after `insertKey`, so the first match is the
binding). -/
def getField (fields : List (String × Json)) (k : String) : Option Json :=
  (fields.find? (fun p => p.1 = k)).map Prod.snd

/-- View a JSON value as a Python `dict`; `none` models the
`AttributeError` / `TypeError` raised when dict operations are applied
to a non-dict value. -/
def Json.getObj? : Json → Option (List (String × Json))
  | Json.obj fields => some fields
  | _ => none

/-- The keyword parameters accepted by `ImageResult.__init__`. -/
def imageFieldNames : List String :=
  ["id", "name", "source", "url", "img", "thumbnail", "snippet", "engine"]

/-- The per-entry coercion `str(v or '')` of the image dict
comprehension: falsy values (null, `false`, `0`, empty string / list /
dict) become the empty string, anything else its Python string form. -/
def coerceField (v : Json) : String :=
  if pyTruthy v then pyStr v else ""

/-- Store one keyword argument into an `ImageResult` under
construction. -/
def setImageField (r : ImageResult) (k : String) (v : String) : ImageResult :=
  if k = "id" then { r with id := v }
  else if k = "name" then { r with name := v }
  else if k = "source" then { r with source := v }
  else if k = "url" then { r with url := v }
  else if k = "img" then { r with img := v }
  else if k = "thumbnail" then { r with thumbnail := v }
  else if k = "snippet" then { r with snippet := v }
  else if k = "engine" then { r with engine := v }
  else r

/-- The constructor call `ImageResult(**{k: str(v or '') for k, v in
image_data.items()})`.  A key that is not an `__init__` parameter makes
the call raise `TypeError` (modelled by `none`); otherwise each present
field gets its coerced value and the absent ones keep their empty
defaults. -/
def mkImageResult (ifields : List (String × Json)) : Option ImageResult :=
  if ifields.all (fun p => imageFieldNames.contains p.1) then
    some (ifields.foldl (fun r p => setImageField r p.1 (coerceField p.2)) {})
  else none

/-- Resolution of the envelope's `data` field (line 157): a string is
itself parsed as JSON, any other value is used as-is. -/
def resolveDataField : Json → Option Json
  | Json.str s => Json.parse s
  | j => some j

/-- Lines 152-157: strip the `data:` prefix, parse the envelope JSON,
fetch its `data` field (defaulting to the string `'{}'`), resolve the
dual string / object shape, and require the result to be a dict (any
dict operation on a non-dict value raises, discarding the line).
`none` is any exception on this path. -/
def decodePayload (value : String) : Option (List (String × Json)) := do
  let envelope ← Json.parse (strDrop value 5)
  let efields ← envelope.getObj?
  let data ← resolveDataField ((getField efields "data").getD (Json.str "\x7b\x7d"))
  data.getObj?

/-- Lines 160-164: if `'image' in data` and the value is a dict, append
the constructed `ImageResult`; a non-dict value is skipped.  `none` is
the `TypeError` of `ImageResult(**...)` on an unknown key, raised
before the append mutates anything. -/
def imageStep (st : StreamState) (dfields : List (String × Json)) :
    Option StreamState :=
  match getField dfields "image" with
  | some (Json.obj ifields) =>
      (mkImageResult ifields).map (fun ir =>
        { st with result := { st.result with images := st.result.images ++ [ir] } })
  | some _ => some st
  | none => some st

/-- Lines 167-168: `if data.get('answer') is not None: answer +=
str(data['answer'])`. -/
def answerStep (st : StreamState) (dfields : List (String × Json)) : StreamState :=
  match getField dfields "answer" with
  | some Json.null => st
  | some v =>
      { st with result := { st.result with answer := st.result.answer ++ pyStr v } }
  | none => st

/-- Lines 170-172: when the provider was built with `stream=True`, echo
a present non-null `answer` fragment to stdout with `end=""` (no
separator, no trailing newline). -/
def echoStep (echo : Bool) (st : StreamState) (dfields : List (String × Json)) :
    StreamState :=
  if echo then
    match getField dfields "answer" with
    | some Json.null => st
    | some v => { st with output := st.output ++ pyStr v }
    | none => st
  else st

/-- Lines 174-175: `if data.get('related'): related +=
str(data['related'])`. -/
def relatedStep (st : StreamState) (dfields : List (String × Json)) : StreamState :=
  match getField dfields "related" with
  | some v =>
      if pyTruthy v then
        { st with result := { st.result with related := st.result.related ++ pyStr v } }
      else st
  | none => st

/-- Lines 159-175, the body of the per-line `try` after decoding: the
four statements above in source order.  The only exception this part
can raise is the `TypeError` of the image step, which occurs before any
accumulation, so `none` leaves the state unchanged. -/
def applyPayload (echo : Bool) (st : StreamState) (dfields : List (String × Json)) :
    Option StreamState :=
  (imageStep st dfields).map (fun st1 =>
    relatedStep (echoStep echo (answerStep st1 dfields) dfields) dfields)

/-- The literal event marker `data:` that selects processed lines. -/
def dataMarker : String := "data:"

/-- One iteration of the `for value in response.iter_lines(...)` loop:
empty lines and lines without the `data:` prefix are skipped, and any
exception inside the per-line `try` is swallowed by `except: continue`,
leaving the accumulated state untouched. -/
def processLine (echo : Bool) (st : StreamState) (value : String) : StreamState :=
  if value ≠ "" ∧ strStartsWith value dataMarker then
    match (decodePayload value).bind (applyPayload echo st) with
    | some st' => st'
    | none => st
  else st

/-- The whole decoding loop over the stream's lines, starting from the
empty accumulator of lines 144-146. -/
def processStream (echo : Bool) (lines : List String) : StreamState :=
  lines.foldl (processLine echo) {}

/-- The value of a completed `search` call over a given line stream:
the accumulated `SearchResult` of line 180. -/
def searchResult (echo : Bool) (lines : List String) : SearchResult :=
  (processStream echo lines).result

/-- One event observed while iterating the response, as seen from
inside the `for` loop: either a delivered text line or an exception
raised by the transport mid-iteration.  `isRequestExc` records whether
the exception is a `requests.RequestException`. -/
inductive StreamItem where
  | line (s : String) : StreamItem
  | fault (isRequestExc : Bool) (msg : String) : StreamItem
deriving Repr

/-- The two client-visible error classes raised by `search` (lines
182-185). -/
inductive SearchError where
  | network (msg : String) : SearchError
  | parsing (msg : String) : SearchError
deriving Repr, DecidableEq

/-- Run the decoding loop until the stream ends or the transport raises
mid-iteration; a fault propagates out of the loop (the per-line
`except` guards only the loop body, not the iteration itself). -/
def consumeStream (echo : Bool) : StreamState → List StreamItem →
    Except (Bool × String) StreamState
  | st, [] => Except.ok st
  | st, StreamItem.line s :: rest => consumeStream echo (processLine echo st s) rest
  | _, StreamItem.fault b m :: _ => Except.error (b, m)

/-- Classification of an escaped exception by the two `except` clauses
of lines 182-185: a `requests.RequestException` becomes `NetworkError`,
anything else `ResponseParsingError`, each wrapping the underlying
description. -/
def classifyError : Bool × String → SearchError
  | (true, m) => SearchError.network ("Network error occurred: " ++ m)
  | (false, m) => SearchError.parsing ("Unexpected error: " ++ m)

/-- A whole `search` call.  The transport is the external collaborator:
it either fails at request time (`Except.error`, with the
`RequestException` flag and description) or yields the stream's items.
The call returns the accumulated result, or exactly one classified
error; on error no partial result is returned. -/
def searchCall (echo : Bool) (transport : Except (Bool × String) (List StreamItem)) :
    Except SearchError SearchResult :=
  match transport with
  | Except.error f => Except.error (classifyError f)
  | Except.ok items =>
      match consumeStream echo {} items with
      | Except.error f => Except.error (classifyError f)
      | Except.ok st => Except.ok st.result

/-- Observation: the images a successfully applied payload appends
(`none` when the payload's image step raises and the line is
dropped). -/
def payloadImages (dfields : List (String × Json)) : Option (List ImageResult) :=
  match getField dfields "image" with
  | some (Json.obj ifields) => (mkImageResult ifields).map (fun ir => [ir])
  | some _ => some []
  | none => some []

/-- Observation: the fragment a payload appends to `answer` (empty when
the field is absent or null). -/
def payloadAnswer (dfields : List (String × Json)) : String :=
  match getField dfields "answer" with
  | some Json.null => ""
  | some v => pyStr v
  | none => ""

/-- Observation: the fragment a payload appends to `related` (empty
when the field is absent or falsy). -/
def payloadRelated (dfields : List (String × Json)) : String :=
  match getField dfields "related" with
  | some v => if pyTruthy v then pyStr v else ""
  | none => ""

/-- Straight concatenation of a list of string fragments, with no
delimiter. -/
def concatFragments (l : List String) : String :=
  l.foldr (fun a b => a ++ b) ""

/-! ### Structural lemmas about the decoding loop -/

theorem imageStep_eq (st : StreamState) (dfields : List (String × Json)) :
    imageStep st dfields =
      (payloadImages dfields).map (fun imgs =>
        { st with result := { st.result with images := st.result.images ++ imgs } }) := by
  unfold imageStep payloadImages
  cases h : getField dfields "image" with
  | none => simp
  | some v =>
      cases v <;> simp
      cases h2 : mkImageResult _ <;> simp

theorem answerStep_eq (st : StreamState) (dfields : List (String × Json)) :
    answerStep st dfields =
      { st with result := { st.result with answer := st.result.answer ++ payloadAnswer dfields } } := by
  unfold answerStep payloadAnswer
  cases h : getField dfields "answer" with
  | none => simp [String.append_empty]
  | some v => cases v <;> simp [String.append_empty]

theorem echoStep_eq (echo : Bool) (st : StreamState) (dfields : List (String × Json)) :
    echoStep echo st dfields =
      { st with output := st.output ++ (if echo then payloadAnswer dfields else "") } := by
  unfold echoStep payloadAnswer
  cases echo with
  | false => simp [String.append_empty]
  | true =>
      cases h : getField dfields "answer" with
      | none => simp [String.append_empty]
      | some v => cases v <;> simp [String.append_empty]

theorem relatedStep_eq (st : StreamState) (dfields : List (String × Json)) :
    relatedStep st dfields =
      { st with result := { st.result with related := st.result.related ++ payloadRelated dfields } } := by
  unfold relatedStep payloadRelated
  cases h : getField dfields "related" with
  | none => simp [String.append_empty]
  | some v =>
      by_cases ht : pyTruthy v = true
      · simp [ht]
      · simp [ht, String.append_empty]

theorem applyPayload_eq (echo : Bool) (st : StreamState) (dfields : List (String × Json)) :
    applyPayload echo st dfields =
      (payloadImages dfields).map (fun imgs =>
        { result := { images := st.result.images ++ imgs,
                      answer := st.result.answer ++ payloadAnswer dfields,
                      related := st.result.related ++ payloadRelated dfields },
          output := st.output ++ (if echo then payloadAnswer dfields else "") }) := by
  unfold applyPayload
  rw [imageStep_eq]
  cases h : payloadImages dfields with
  | none => simp
  | some imgs => simp [answerStep_eq, echoStep_eq, relatedStep_eq]

theorem processLine_shift (echo : Bool) (st : StreamState) (value : String) :
    processLine echo st value =
      { result := { images := st.result.images ++ (processLine echo {} value).result.images,
                    answer := st.result.answer ++ (processLine echo {} value).result.answer,
                    related := st.result.related ++ (processLine echo {} value).result.related },
        output := st.output ++ (processLine echo {} value).output } := by
  unfold processLine
  by_cases hg : value ≠ "" ∧ strStartsWith value dataMarker
  · simp only [if_pos hg]
    generalize decodePayload value = o
    cases o with
    | none => simp
    | some dfields =>
        simp only [Option.some_bind]
        rw [applyPayload_eq, applyPayload_eq]
        generalize payloadImages dfields = p
        cases p with
        | none => simp
        | some imgs => simp
  · simp only [if_neg hg]
    simp

theorem foldl_processLine_shift (echo : Bool) (lines : List String) (st : StreamState) :
    lines.foldl (processLine echo) st =
      { result := { images := st.result.images ++ (processStream echo lines).result.images,
                    answer := st.result.answer ++ (processStream echo lines).result.answer,
                    related := st.result.related ++ (processStream echo lines).result.related },
        output := st.output ++ (processStream echo lines).output } := by
  induction lines generalizing st with
  | nil => simp [processStream]
  | cons v rest ih =>
      show rest.foldl (processLine echo) (processLine echo st v) = _
      rw [ih (processLine echo st v)]
      have hs : processStream echo (v :: rest) =
          rest.foldl (processLine echo) (processLine echo {} v) := rfl
      rw [hs, ih (processLine echo {} v)]
      rw [processLine_shift echo st v]
      simp [List.append_assoc, String.append_assoc]

theorem processStream_cons (echo : Bool) (v : String) (rest : List String) :
    processStream echo (v :: rest) =
      rest.foldl (processLine echo) (processLine echo {} v) := rfl

theorem processStream_images (echo : Bool) (lines : List String) :
    (processStream echo lines).result.images =
      (lines.map (fun v => (processLine echo {} v).result.images)).flatten := by
  induction lines with
  | nil => rfl
  | cons v rest ih =>
      rw [processStream_cons, foldl_processLine_shift, ih]
      simp

theorem processStream_answer (echo : Bool) (lines : List String) :
    (processStream echo lines).result.answer =
      concatFragments (lines.map (fun v => (processLine echo {} v).result.answer)) := by
  induction lines with
  | nil => rfl
  | cons v rest ih =>
      rw [processStream_cons, foldl_processLine_shift, ih]
      simp [concatFragments]

theorem processStream_related (echo : Bool) (lines : List String) :
    (processStream echo lines).result.related =
      concatFragments (lines.map (fun v => (processLine echo {} v).result.related)) := by
  induction lines with
  | nil => rfl
  | cons v rest ih =>
      rw [processStream_cons, foldl_processLine_shift, ih]
      simp [concatFragments]

theorem processStream_output (echo : Bool) (lines : List String) :
    (processStream echo lines).output =
      concatFragments (lines.map (fun v => (processLine echo {} v).output)) := by
  induction lines with
  | nil => rfl
  | cons v rest ih =>
      rw [processStream_cons, foldl_processLine_shift, ih]
      simp [concatFragments]

theorem consumeStream_lines (echo : Bool) (lines : List String) :
    ∀ st : StreamState,
      consumeStream echo st (lines.map StreamItem.line) =
        Except.ok (lines.foldl (processLine echo) st) := by
  induction lines with
  | nil => intro st; rfl
  | cons v rest ih => intro st; exact ih (processLine echo st v)

theorem consumeStream_fault (echo : Bool) (pre : List String) (b : Bool) (m : String)
    (post : List StreamItem) :
    ∀ st : StreamState,
      consumeStream echo st (pre.map StreamItem.line ++ StreamItem.fault b m :: post) =
        Except.error (b, m) := by
  induction pre with
  | nil => intro st; rfl
  | cons v rest ih => intro st; exact ih (processLine echo st v)

theorem searchCall_ok_lines (echo : Bool) (lines : List String) :
    searchCall echo (Except.ok (lines.map StreamItem.line)) =
      Except.ok (searchResult echo lines) := by
  have h := consumeStream_lines echo lines {}
  simp only [searchCall, h, searchResult, processStream]

theorem processLine_skip (echo : Bool) (st : StreamState) (value : String)
    (h : ¬ (value ≠ "" ∧ strStartsWith value dataMarker)) :
    processLine echo st value = st := by
  unfold processLine
  exact if_neg h

theorem netMsg_ne_empty (m : String) : "Network error occurred: " ++ m ≠ "" := by
  intro h
  have hlen := congrArg String.length h
  rw [String.length_append] at hlen
  have h1 : ("Network error occurred: " : String).length = 24 := rfl
  have h2 : ("" : String).length = 0 := rfl
  omega

theorem processLine_output_false (st : StreamState) (value : String) :
    (processLine false st value).output = st.output := by
  unfold processLine
  by_cases hg : value ≠ "" ∧ strStartsWith value dataMarker
  · simp only [if_pos hg]
    generalize decodePayload value = o
    cases o with
    | none => rfl
    | some dfields =>
        simp only [Option.some_bind]
        rw [applyPayload_eq]
        generalize payloadImages dfields = p
        cases p with
        | none => rfl
        | some imgs => simp
  · rw [if_neg hg]

theorem processLine_output_eq_answer (value : String) :
    (processLine true {} value).output = (processLine true {} value).result.answer := by
  unfold processLine
  by_cases hg : value ≠ "" ∧ strStartsWith value dataMarker
  · simp only [if_pos hg]
    generalize decodePayload value = o
    cases o with
    | none => rfl
    | some dfields =>
        simp only [Option.some_bind]
        rw [applyPayload_eq]
        generalize payloadImages dfields = p
        cases p with
        | none => rfl
        | some imgs => simp
  · rw [if_neg hg]

/-! ### The claims -/

/-- C1: if envelope parsing, inner parsing or any field access fails
for a `data:`-prefixed line, that whole line is discarded and decoding
continues with the next line; no error reaches the caller, and every
well-formed event elsewhere still contributes — in particular one valid
image event interleaved with one `data:` line of invalid JSON yields
exactly the valid image. -/
theorem c1_malformed_lines_dropped :
    (∀ (echo : Bool) (st : StreamState) (value : String),
        ((decodePayload value).bind (applyPayload echo st)).isNone = true →
        processLine echo st value = st)
    ∧ (∀ (echo : Bool) (st : StreamState) (value : String) (rest : List String),
        (value :: rest).foldl (processLine echo) st =
          rest.foldl (processLine echo) (processLine echo st value))
    ∧ (∀ (echo : Bool) (lines : List String),
        searchCall echo (Except.ok (lines.map StreamItem.line)) =
          Except.ok (searchResult echo lines))
    ∧ searchResult false
        ["data:\x7b\"data\": \x7b\"image\": \x7b\"id\": \"1\"\x7d\x7d\x7d",
         "data:\x7boops"] =
        { images := [{ id := "1" }], answer := "", related := "" } := by
  refine ⟨?_, fun _ _ _ _ => rfl, searchCall_ok_lines, by decide⟩
  intro echo st value h
  unfold processLine
  by_cases hg : value ≠ "" ∧ strStartsWith value dataMarker
  · simp only [if_pos hg]
    rw [Option.isNone_iff_eq_none] at h
    rw [h]
  · exact if_neg hg

/-- Witness for C1 at a concrete malformed line. -/
theorem c1_malformed_lines_dropped_witness :
    processLine false {} "data:\x7boops" = {} :=
  c1_malformed_lines_dropped.1 false {} "data:\x7boops" (by rfl)

/-- C2 counterexample: an image object carrying the recognized key
`id` together with the unknown key `extra` does not yield an appended
`ImageResult` — `ImageResult(**...)` raises `TypeError` on the unknown
keyword and the whole line is discarded, so `images` stays empty. -/
theorem c2_unknown_key_counterexample :
    getField [("id", Json.str "1"), ("extra", Json.str "x")] "id" = some (Json.str "1")
    ∧ (searchResult false
        ["data:\x7b\"data\": \x7b\"image\": \x7b\"id\": \"1\", \"extra\": \"x\"\x7d\x7d\x7d"]).images
      = [] :=
  ⟨rfl, by decide⟩

/-- C2 amended: an image object all of whose keys are known
`ImageResult` field names yields an appended `ImageResult` built from
those keys, with the record's empty defaults for absent fields; an
image object with any unknown key instead makes the constructor raise,
so no `ImageResult` is built and the whole line is dropped. -/
theorem c2_image_construction :
    (∀ ifields : List (String × Json),
        ifields.all (fun p => imageFieldNames.contains p.1) = true →
        mkImageResult ifields =
          some (ifields.foldl (fun r p => setImageField r p.1 (coerceField p.2)) {}))
    ∧ (∀ ifields : List (String × Json),
        ifields.all (fun p => imageFieldNames.contains p.1) = false →
        mkImageResult ifields = none)
    ∧ (∀ (echo : Bool) (st : StreamState) (dfields ifields : List (String × Json))
          (ir : ImageResult),
        getField dfields "image" = some (Json.obj ifields) →
        mkImageResult ifields = some ir →
        ∃ st', applyPayload echo st dfields = some st' ∧
          st'.result.images = st.result.images ++ [ir])
    ∧ (∀ (echo : Bool) (st : StreamState) (dfields ifields : List (String × Json)),
        getField dfields "image" = some (Json.obj ifields) →
        mkImageResult ifields = none →
        applyPayload echo st dfields = none) := by
  refine ⟨?_, ?_, ?_, ?_⟩
  · intro ifields h
    unfold mkImageResult
    rw [if_pos h]
  · intro ifields h
    unfold mkImageResult
    rw [h]
    rfl
  · intro echo st dfields ifields ir himg hmk
    have hp : payloadImages dfields = some [ir] := by
      unfold payloadImages
      rw [himg]
      show Option.map (fun ir => [ir]) (mkImageResult ifields) = some [ir]
      rw [hmk]
      rfl
    rw [applyPayload_eq, hp]
    exact ⟨_, rfl, rfl⟩
  · intro echo st dfields ifields himg hmk
    have hp : payloadImages dfields = none := by
      unfold payloadImages
      rw [himg]
      show Option.map (fun ir => [ir]) (mkImageResult ifields) = none
      rw [hmk]
      rfl
    rw [applyPayload_eq, hp]
    rfl

/-- Witness for C2's amended statement at concrete image objects. -/
theorem c2_image_construction_witness :
    mkImageResult [("id", Json.str "1")] = some { id := "1" }
    ∧ mkImageResult [("id", Json.str "1"), ("extra", Json.str "x")] = none :=
  ⟨(c2_image_construction.1 [("id", Json.str "1")] (by rfl)).trans (by rfl),
   c2_image_construction.2.1 [("id", Json.str "1"), ("extra", Json.str "x")] (by rfl)⟩

/-- C3: the envelope's `data` field is accepted both as a JSON-encoded
string (parsed again) and as an already-decoded object, extracting the
same fields; both concrete shapes of the `answer` example accumulate
exactly `x`. -/
theorem c3_dual_shape_data_field :
    (∀ (s : String) (dfields : List (String × Json)),
        Json.parse s = some (Json.obj dfields) →
        resolveDataField (Json.str s) = some (Json.obj dfields) ∧
        resolveDataField (Json.obj dfields) = some (Json.obj dfields))
    ∧ searchResult false ["data:\x7b\"data\": \"\x7b\\\"answer\\\":\\\"x\\\"\x7d\"\x7d"] =
        { images := [], answer := "x", related := "" }
    ∧ searchResult false ["data:\x7b\"data\": \x7b\"answer\": \"x\"\x7d\x7d"] =
        { images := [], answer := "x", related := "" } := by
  refine ⟨?_, by decide, by decide⟩
  intro s dfields h
  exact ⟨h, rfl⟩

/-- Witness for C3 at the concrete string-encoded payload. -/
theorem c3_dual_shape_data_field_witness :
    resolveDataField (Json.str "\x7b\"answer\": \"x\"\x7d") =
      some (Json.obj [("answer", Json.str "x")]) :=
  (c3_dual_shape_data_field.1 "\x7b\"answer\": \"x\"\x7d" [("answer", Json.str "x")]
    (by rfl)).1

/-- C4: a failing `search` call raises exactly one of `NetworkError`
(on a transport fault, wrapping a non-empty description) or
`ResponseParsingError` (any other unexpected failure); an error outcome
carries no partial result, and a transport fault — at request time or
mid-stream — always classifies as `NetworkError`. -/
theorem c4_error_taxonomy :
    (∀ (echo : Bool) (transport : Except (Bool × String) (List StreamItem)),
        (∃ r, searchCall echo transport = Except.ok r)
        ∨ (∃ m, searchCall echo transport = Except.error (SearchError.network m) ∧ m ≠ "")
        ∨ (∃ m, searchCall echo transport = Except.error (SearchError.parsing m)))
    ∧ (∀ (echo : Bool) (m : String),
        searchCall echo (Except.error (true, m)) =
          Except.error (SearchError.network ("Network error occurred: " ++ m)))
    ∧ (∀ (echo : Bool) (pre : List String) (m : String) (post : List StreamItem),
        searchCall echo
            (Except.ok (pre.map StreamItem.line ++ StreamItem.fault true m :: post)) =
          Except.error (SearchError.network ("Network error occurred: " ++ m)))
    ∧ (∀ m : String, "Network error occurred: " ++ m ≠ "") := by
  refine ⟨?_, fun _ _ => rfl, ?_, netMsg_ne_empty⟩
  · intro echo transport
    cases transport with
    | error f =>
        rcases f with ⟨b, m⟩
        cases b with
        | true =>
            exact Or.inr (Or.inl ⟨"Network error occurred: " ++ m, rfl, netMsg_ne_empty m⟩)
        | false =>
            exact Or.inr (Or.inr ⟨"Unexpected error: " ++ m, rfl⟩)
    | ok items =>
        cases h : consumeStream echo {} items with
        | ok st => exact Or.inl ⟨st.result, by simp only [searchCall, h]⟩
        | error f =>
            rcases f with ⟨b, m⟩
            cases b with
            | true =>
                exact Or.inr (Or.inl
                  ⟨"Network error occurred: " ++ m, by simp only [searchCall, h]; rfl,
                   netMsg_ne_empty m⟩)
            | false =>
                exact Or.inr (Or.inr
                  ⟨"Unexpected error: " ++ m, by simp only [searchCall, h]; rfl⟩)
  · intro echo pre m post
    have h := consumeStream_fault echo pre true m post {}
    simp only [searchCall, h]
    rfl

/-- C5: `images` is append-only and the final sequence is exactly the
per-line image contributions in stream order; three image events with
ids `1`, `2`, `3` interleaved with non-image and malformed events keep
that order. -/
theorem c5_image_order :
    (∀ (echo : Bool) (lines : List String),
        (processStream echo lines).result.images =
          (lines.map (fun v => (processLine echo {} v).result.images)).flatten)
    ∧ (∀ (echo : Bool) (st : StreamState) (value : String),
        ∃ tail, (processLine echo st value).result.images = st.result.images ++ tail)
    ∧ searchResult false
        ["data:\x7b\"data\": \x7b\"image\": \x7b\"id\": \"1\"\x7d\x7d\x7d",
         "data:\x7b\"data\": \x7b\"answer\": \"mid\"\x7d\x7d",
         "data:\x7b\"data\": \x7b\"image\": \x7b\"id\": \"2\"\x7d\x7d\x7d",
         "data:\x7bbad",
         "data:\x7b\"data\": \x7b\"image\": \x7b\"id\": \"3\"\x7d\x7d\x7d"] =
        { images := [{ id := "1" }, { id := "2" }, { id := "3" }],
          answer := "mid", related := "" } := by
  refine ⟨processStream_images, ?_, by decide⟩
  intro echo st value
  refine ⟨(processLine echo {} value).result.images, ?_⟩
  rw [processLine_shift echo st value]

/-- C6: every image field value is coerced to a string, falsy values
(null in particular) becoming the empty string; an image event whose
`source` is JSON null yields `ImageResult.source = ""`; a truthy number
becomes its decimal string. -/
theorem c6_field_coercion :
    (∀ v : Json, pyTruthy v = false → coerceField v = "")
    ∧ (∀ v : Json, pyTruthy v = true → coerceField v = pyStr v)
    ∧ coerceField Json.null = ""
    ∧ coerceField (Json.num 85) = "85"
    ∧ mkImageResult [("source", Json.null)] = some { source := "" }
    ∧ searchResult false ["data:\x7b\"data\": \x7b\"image\": \x7b\"source\": null\x7d\x7d\x7d"] =
        { images := [{ source := "" }], answer := "", related := "" } := by
  refine ⟨?_, ?_, rfl, by decide, by decide, by decide⟩
  · intro v h
    unfold coerceField
    rw [h]
    rfl
  · intro v h
    unfold coerceField
    rw [h]
    rfl

/-- Witness for C6 at the null and empty-string values. -/
theorem c6_field_coercion_witness :
    coerceField Json.null = "" ∧ coerceField (Json.str "ok") = "ok" :=
  ⟨c6_field_coercion.1 Json.null (by rfl),
   (c6_field_coercion.2.1 (Json.str "ok") (by rfl)).trans (by rfl)⟩

/-- C7: the accumulated `answer` and `related` are the straight
concatenation of the successive per-line fragments in arrival order,
with no deduplication and no inserted delimiter; each applied payload
appends exactly its own fragment, and the fragments `Delhi` and
` AQI is 85` accumulate to exactly `Delhi AQI is 85`. -/
theorem c7_straight_concatenation :
    (∀ (echo : Bool) (lines : List String),
        (processStream echo lines).result.answer =
          concatFragments (lines.map (fun v => (processLine echo {} v).result.answer)) ∧
        (processStream echo lines).result.related =
          concatFragments (lines.map (fun v => (processLine echo {} v).result.related)))
    ∧ (∀ (echo : Bool) (st : StreamState) (dfields : List (String × Json)),
        (applyPayload echo st dfields).map (fun st' => st'.result.answer) =
          (applyPayload echo st dfields).map
            (fun _ => st.result.answer ++ payloadAnswer dfields))
    ∧ searchResult false
        ["data:\x7b\"data\": \x7b\"answer\": \"Delhi\"\x7d\x7d",
         "data:\x7b\"data\": \x7b\"answer\": \" AQI is 85\"\x7d\x7d"] =
        { images := [], answer := "Delhi AQI is 85", related := "" } := by
  refine ⟨fun echo lines => ⟨processStream_answer echo lines, processStream_related echo lines⟩,
          ?_, by decide⟩
  intro echo st dfields
  rw [applyPayload_eq]
  generalize payloadImages dfields = p
  cases p with
  | none => rfl
  | some imgs => rfl

/-- C8: a stream with no non-empty `data:`-prefixed line — empty or
entirely malformed — yields a successful call with the empty aggregate
and no error. -/
theorem c8_no_matching_lines :
    (∀ (echo : Bool) (lines : List String),
        (∀ v ∈ lines, v = "" ∨ strStartsWith v dataMarker = false) →
        searchCall echo (Except.ok (lines.map StreamItem.line)) =
          Except.ok { images := [], answer := "", related := "" })
    ∧ searchCall false (Except.ok []) =
        Except.ok { images := [], answer := "", related := "" } := by
  constructor
  · intro echo lines h
    rw [searchCall_ok_lines]
    have hstream : ∀ st : StreamState, lines.foldl (processLine echo) st = st := by
      induction lines with
      | nil => intro st; rfl
      | cons v rest ih =>
          intro st
          have hv := h v (List.mem_cons_self v rest)
          have hskip : processLine echo st v = st := by
            apply processLine_skip
            intro hg
            cases hv with
            | inl h1 => exact hg.1 h1
            | inr h2 => rw [hg.2] at h2; exact Bool.noConfusion h2
          show rest.foldl (processLine echo) (processLine echo st v) = st
          rw [hskip]
          exact ih (fun v hv => h v (List.mem_cons_of_mem _ hv)) st

    show Except.ok (searchResult echo lines) = _
    unfold searchResult processStream
    rw [hstream]
  · rfl

/-- Witness for C8 at a concrete entirely-malformed stream. -/
theorem c8_no_matching_lines_witness :
    searchCall false (Except.ok (["", "garbage", "dat: x"].map StreamItem.line)) =
      Except.ok { images := [], answer := "", related := "" } :=
  c8_no_matching_lines.1 false ["", "garbage", "dat: x"] (by decide)

/-- C9: exactly when the provider's stream-echo flag is set, each
decoded non-null `answer` fragment is also written to stdout as it is
decoded, with no added separator and no trailing newline (the stream's
stdout text equals the accumulated answer); with the flag unset nothing
is written. -/
theorem c9_echo_to_console :
    (∀ lines : List String,
        (processStream true lines).output = (processStream true lines).result.answer)
    ∧ (∀ lines : List String, (processStream false lines).output = "")
    ∧ (∀ (st : StreamState) (dfields : List (String × Json)),
        (applyPayload true st dfields).map StreamState.output =
          (applyPayload true st dfields).map
            (fun _ => st.output ++ payloadAnswer dfields))
    ∧ (∀ (st : StreamState) (dfields : List (String × Json)),
        (applyPayload false st dfields).map StreamState.output =
          (applyPayload false st dfields).map (fun _ => st.output)) := by
  refine ⟨?_, ?_, ?_, ?_⟩
  · intro lines
    induction lines with
    | nil => rfl
    | cons v rest ih =>
        rw [processStream_cons, foldl_processLine_shift]
        show (processLine true {} v).output ++ (processStream true rest).output =
          (processLine true {} v).result.answer ++ (processStream true rest).result.answer
        rw [processLine_output_eq_answer, ih]
  · intro lines
    induction lines with
    | nil => rfl
    | cons v rest ih =>
        rw [processStream_cons, foldl_processLine_shift]
        show (processLine false {} v).output ++ _ = _
        rw [processLine_output_false]
        show ("" : String) ++ _ = _
        rw [String.empty_append]
        exact ih
  · intro st dfields
    rw [applyPayload_eq]
    generalize payloadImages dfields = p
    cases p with
    | none => rfl
    | some imgs => rfl
  · intro st dfields
    rw [applyPayload_eq]
    generalize payloadImages dfields = p
    cases p with
    | none => rfl
    | some imgs => simp

/-- C10: a payload whose `image` field is present but not an object
skips only the image — the line is kept, its `answer` and `related`
fields still accumulate, and no error is raised. -/
theorem c10_nonobject_image_skipped :
    (∀ (echo : Bool) (st : StreamState) (dfields : List (String × Json)) (v : Json),
        getField dfields "image" = some v →
        (Json.getObj? v).isNone = true →
        applyPayload echo st dfields =
          some { result := { images := st.result.images,
                             answer := st.result.answer ++ payloadAnswer dfields,
                             related := st.result.related ++ payloadRelated dfields },
                 output := st.output ++ (if echo then payloadAnswer dfields else "") })
    ∧ searchResult false
        ["data:\x7b\"data\": \x7b\"image\": \"nope\", \"answer\": \"a\", \"related\": \"r\"\x7d\x7d"] =
        { images := [], answer := "a", related := "r" } := by
  refine ⟨?_, by decide⟩
  intro echo st dfields v himg hv
  have hp : payloadImages dfields = some [] := by
    unfold payloadImages
    rw [himg]
    cases v with
    | obj fields => exact Bool.noConfusion hv
    | null => rfl
    | bool b => rfl
    | num n => rfl
    | str s => rfl
    | arr elems => rfl
  rw [applyPayload_eq, hp]
  simp

/-- Witness for C10 at a concrete payload whose image is a string. -/
theorem c10_nonobject_image_skipped_witness :
    applyPayload false {} [("image", Json.str "nope"), ("answer", Json.str "a")] =
      some { result := { images := [], answer := "a", related := "" }, output := "" } :=
  (c10_nonobject_image_skipped.1 false {}
      [("image", Json.str "nope"), ("answer", Json.str "a")]
      (Json.str "nope") (by rfl) (by rfl)).trans (by rfl)

end IsouSearch
